import Mathlib

/-!
Shallow embedding of the data-access core of the Israel vehicle-data MCP
server (`mcp_server.py`): query/filter building, outbound request bodies,
normalization of the upstream success/failure envelope, the boundary tool
wrappers, and the two-hop license-resolution chain.

Network effects are made explicit: each function that performs an outbound
call takes the upstream's behaviour as an argument (an `UpstreamResp`
value, or a fetch oracle for the second hop of the license chain), and the
Python control flow — including exception raising and the catch-all
`try/except` at every tool boundary — is modelled by explicit tagged
results.
-/

namespace CarPlate

/-- Module-level constant `API_ENDPOINT` of `mcp_server.py`. -/
def API_ENDPOINT : String := "https://data.gov.il/api/3/action/datastore_search"

/-- Module-level constant `RESOURCE_ID` of `mcp_server.py`. -/
def RESOURCE_ID : String := "053cea08-09bc-40ec-8f7a-156f0677aff3"

/-- A vehicle record: an opaque upstream-defined ordered mapping of field
name to scalar value (scalars rendered as strings). -/
abbrev VehicleRec := List (String × String)

/-- The `result` object of a datastore-search envelope. Either key may be
missing from the JSON (`Option`); the Python reads them with
`result.get("total", 0)` and `result.get("records", [])`. -/
structure QueryResult where
  total : Option Int
  records : Option (List VehicleRec)
deriving DecidableEq, Repr

/-- The possible outcomes of one outbound HTTP call, as seen by the Python
caller: a transport-level `httpx` error (connection/timeout/HTTP status
raised by `raise_for_status`), a malformed non-JSON body (raised by
`response.json()`), or a well-formed envelope `{success, result?}` where
the `result` key may be absent (`data.get("result", ...)`). -/
inductive UpstreamResp (α : Type) where
  | netError (msg : String)
  | badJson (msg : String)
  | env (success : Bool) (result : Option α)
deriving DecidableEq

/-- Python truthiness of an optional string: `None` and `""` are falsy. -/
def pyTruthyStr : Option String → Bool
  | none => false
  | some s => decide (s ≠ "")

/-- `data.get("result", {}).get("records", [])` from `fetch_vehicle_by_id`
(and `result.get("records", [])` from `search_vehicles`). -/
def envRecords (result : Option QueryResult) : List VehicleRec :=
  match result with
  | none => []
  | some r => r.records.getD []

/-- `result.get("total", 0)` after `result = data.get("result", {})`. -/
def envTotal (result : Option QueryResult) : Int :=
  match result with
  | none => 0
  | some r => r.total.getD 0

/-- Outcome of `fetch_vehicle_by_id`: the function either raises an
exception that propagates to its caller (`thrown` — `httpx` errors are
re-raised, and `success: false` raises `ValueError`), returns the
not-found dict `{"error": "Vehicle not found"}` (`errorDict`), or returns
the first record of the result set. -/
inductive FetchVehicleResult where
  | thrown (msg : String)
  | errorDict (msg : String)
  | record (r : VehicleRec)
deriving DecidableEq

/-- Normalization performed by `fetch_vehicle_by_id` (mcp_server.py:66-106)
on the outcome of its single outbound call. -/
def fetch_vehicle_by_id (resp : UpstreamResp QueryResult) : FetchVehicleResult :=
  match resp with
  | .netError m => .thrown m
  | .badJson m => .thrown m
  | .env success result =>
    if success = false then .thrown "Failed to fetch data from API"
    else
      match envRecords result with
      | [] => .errorDict "Vehicle not found"
      | r :: _ => .record r

/-- A value of the urlencoded POST body: a plain string, an integer, or the
`json.dumps` of a filters map (`jsonListFilters` when every value is a list
of strings, as in `search_vehicles`; `jsonStrFilters` when the values are
bare strings, as in `fetch_vehicle_by_id`). -/
inductive ParamValue where
  | str (s : String)
  | int (n : Int)
  | jsonListFilters (f : List (String × List String))
  | jsonStrFilters (f : List (String × String))
deriving DecidableEq

/-- The POST body built by `fetch_vehicle_by_id` (mcp_server.py:72-75):
`{"resource_id": RESOURCE_ID, "filters": json.dumps({"mispar_rechev":
license_plate})}` — note: no `limit`/`offset` keys, and the filter value
is the bare plate string, not a one-element list. -/
def fetch_vehicle_params (license_plate : String) : List (String × ParamValue) :=
  [("resource_id", ParamValue.str RESOURCE_ID),
   ("filters", ParamValue.jsonStrFilters [("mispar_rechev", license_plate)])]

/-- The typed search request: the four optional criteria fields plus
pagination, mirroring the parameters of `search_vehicles`
(mcp_server.py:108-115). In Python the optional fields default to `None`
and `limit`/`offset` default to `10`/`0` (see `search_limit_default`,
`search_offset_default`). -/
structure SearchCriteria where
  tozeret_nm : Option String
  degem_nm : Option String
  shnat_yitzur : Option Int
  mispar_rechev : Option String
  limit : Int
  offset : Int
deriving DecidableEq

/-- Default of the `limit` parameter of `search_vehicles` and
`search_vehicles_tool`. -/
def search_limit_default : Int := 10

/-- Default of the `offset` parameter of `search_vehicles` and
`search_vehicles_tool`. -/
def search_offset_default : Int := 0

/-- The filter map built by `search_vehicles` (mcp_server.py:131-139):
string fields are included when truthy (so an empty string is dropped),
`shnat_yitzur` when it `is not None`; each included value is `[str (v)]`,
a one-element list. Insertion order follows the source. -/
def buildSearchFilter (c : SearchCriteria) : List (String × List String) :=
  (if pyTruthyStr c.tozeret_nm then [("tozeret_nm", [c.tozeret_nm.getD ""])] else [])
  ++ (if pyTruthyStr c.degem_nm then [("degem_nm", [c.degem_nm.getD ""])] else [])
  ++ (match c.shnat_yitzur with
      | some y => [("shnat_yitzur", [toString y])]
      | none => [])
  ++ (if pyTruthyStr c.mispar_rechev then [("mispar_rechev", [c.mispar_rechev.getD ""])] else [])

/-- The POST body built by `search_vehicles` (mcp_server.py:141-151):
`resource_id`, `limit`, `offset`, then — when `shnat_yitzur is not None` —
an extra top-level `shnat_yitzur` key, then — when the filter map is
non-empty — `filters` as its `json.dumps`. -/
def search_params (c : SearchCriteria) : List (String × ParamValue) :=
  let filters := buildSearchFilter c
  let base := [("resource_id", ParamValue.str RESOURCE_ID),
               ("limit", ParamValue.int c.limit),
               ("offset", ParamValue.int c.offset)]
  let base :=
    match c.shnat_yitzur with
    | some y => base ++ [("shnat_yitzur", ParamValue.str (toString y))]
    | none => base
  if (buildSearchFilter c).isEmpty then base
  else base ++ [("filters", ParamValue.jsonListFilters filters)]

/-- The dict returned by `search_vehicles` on success
(mcp_server.py:178-183). -/
structure SearchResult where
  total : Int
  records : List VehicleRec
  limit : Int
  offset : Int
deriving DecidableEq

/-- Outcome of `search_vehicles`: a raised exception propagating to the
caller, or the success dict. -/
inductive SearchOutcome where
  | thrown (msg : String)
  | ok (r : SearchResult)
deriving DecidableEq

/-- Normalization performed by `search_vehicles` (mcp_server.py:155-192)
on the outcome of its single outbound call: `httpx` errors and unexpected
errors are re-raised, `success: false` raises `ValueError`, and otherwise
`total`/`records` are read from the envelope with defaults while
`limit`/`offset` are echoed from the request. -/
def search_vehicles (c : SearchCriteria) (resp : UpstreamResp QueryResult) : SearchOutcome :=
  match resp with
  | .netError m => .thrown m
  | .badJson m => .thrown m
  | .env success result =>
    if success = false then .thrown "Failed to fetch data from API"
    else .ok ⟨envTotal result, envRecords result, c.limit, c.offset⟩

/-- Result of the plate-lookup boundary (`get_vehicle_by_plate_tool`,
mcp_server.py:274-298, and the `vehicles://{license_plate}` resource,
mcp_server.py:232-238): always a returned dict, either `{"error": ...}`
or a vehicle record — never a propagated exception. -/
inductive PlateToolResult where
  | errorDict (msg : String)
  | record (r : VehicleRec)
deriving DecidableEq

/-- `get_vehicle_by_plate_tool` (mcp_server.py:274-298): calls
`fetch_vehicle_by_id` and returns its dict unchanged (the `"error" in
result` branch only logs); any raised exception is caught and returned as
`{"error": str(e)}`. -/
def get_vehicle_by_plate_tool (resp : UpstreamResp QueryResult) : PlateToolResult :=
  match fetch_vehicle_by_id resp with
  | .thrown m => .errorDict m
  | .errorDict m => .errorDict m
  | .record r => .record r

/-- The `vehicles://{license_plate}` resource `vehicle_info`
(mcp_server.py:232-238): `try: return await fetch_vehicle_by_id(...)
except Exception as e: return {"error": str(e)}`. -/
def vehicle_info (resp : UpstreamResp QueryResult) : PlateToolResult :=
  match fetch_vehicle_by_id resp with
  | .thrown m => .errorDict m
  | .errorDict m => .errorDict m
  | .record r => .record r

/-- Result of the search boundary (`search_vehicles_tool`,
mcp_server.py:241-272): a returned error dict or the search-result dict. -/
inductive SearchToolResult where
  | errorDict (msg : String)
  | ok (r : SearchResult)
deriving DecidableEq

/-- `search_vehicles_tool` (mcp_server.py:241-272): guards on an empty
`RESOURCE_ID`, calls `search_vehicles` with `shnat_yitzur=None` (the year
filter was removed at this boundary), and catches any exception as
`{"error": str(e)}`. -/
def search_vehicles_tool (tozeret_nm degem_nm mispar_rechev : Option String)
    (limit offset : Int) (resp : UpstreamResp QueryResult) : SearchToolResult :=
  if RESOURCE_ID = "" then .errorDict "RESOURCE_ID is not configured."
  else
    match search_vehicles ⟨tozeret_nm, degem_nm, none, mispar_rechev, limit, offset⟩ resp with
    | .thrown m => .errorDict m
    | .ok r => .ok r

/-- A license-catalog entry, opaque to this core. -/
abbrev LicenseEntry := List (String × String)

/-- `fetch_available_licenses` (mcp_server.py:194-202): raises on
transport errors and on `success: false`, else returns
`data.get("result", [])`. -/
def fetch_available_licenses (resp : UpstreamResp (List LicenseEntry)) :
    Except String (List LicenseEntry) :=
  match resp with
  | .netError m => .error m
  | .badJson m => .error m
  | .env success result =>
    if success = false then .error "Failed to fetch licenses from API"
    else .ok (result.getD [])

/-- Result of the license-catalog boundary
(`list_available_licenses_tool`, mcp_server.py:300-317). -/
inductive LicenseListResult where
  | errorDict (msg : String)
  | licenses (ls : List LicenseEntry)
deriving DecidableEq

/-- `list_available_licenses_tool` (mcp_server.py:300-317): calls
`fetch_available_licenses` and catches any exception as `{"error":
str(e)}`. -/
def list_available_licenses_tool (resp : UpstreamResp (List LicenseEntry)) :
    LicenseListResult :=
  match fetch_available_licenses resp with
  | .error m => .errorDict m
  | .ok ls => .licenses ls

/-- Resource metadata: of the `resource_show` result only `package_id` is
contractually read; the key may be missing (`.get("package_id")`). -/
structure ResourceMeta where
  package_id : Option String
deriving DecidableEq

/-- Package metadata: of the `package_show` result only the three license
keys are contractually read; each may be missing. -/
structure PackageMeta where
  license_title : Option String
  license_id : Option String
  license_url : Option String
deriving DecidableEq

/-- `fetch_resource_details` (mcp_server.py:204-216): raises on transport
errors and on `success: false` (the Python message also appends the
envelope's `error` field, which nothing downstream reads), else returns
`data.get("result", {})` — a missing `result` defaults to the empty
mapping, in which every read key is absent. -/
def fetch_resource_details (resource_id : String) (resp : UpstreamResp ResourceMeta) :
    Except String ResourceMeta :=
  match resp with
  | .netError m => .error m
  | .badJson m => .error m
  | .env success result =>
    if success = false then
      .error ("Failed to fetch resource details for " ++ resource_id)
    else .ok (result.getD ⟨none⟩)

/-- `fetch_package_details` (mcp_server.py:218-229): same shape as
`fetch_resource_details` for the `package_show` action. -/
def fetch_package_details (package_id : String) (resp : UpstreamResp PackageMeta) :
    Except String PackageMeta :=
  match resp with
  | .netError m => .error m
  | .badJson m => .error m
  | .env success result =>
    if success = false then
      .error ("Failed to fetch package details for " ++ package_id)
    else .ok (result.getD ⟨none, none, none⟩)

/-- The sentinel substituted for a missing or empty `license_url`
(mcp_server.py:360). -/
def LICENSE_URL_FALLBACK : String := "Not explicitly provided in package details"

/-- The success dict of `get_vehicle_dataset_license_tool`
(mcp_server.py:355-361): `license_title`/`license_id` are returned as
read (possibly `None`), `license_url` is always a string thanks to the
`or`-fallback. -/
structure LicenseInfo where
  package_id : String
  resource_id : String
  license_title : Option String
  license_id : Option String
  license_url : String
deriving DecidableEq

/-- Result of the dataset-license boundary
(`get_vehicle_dataset_license_tool`, mcp_server.py:319-366). -/
inductive LicenseToolResult where
  | errorDict (msg : String)
  | license (l : LicenseInfo)
deriving DecidableEq

/-- `get_vehicle_dataset_license_tool` (mcp_server.py:319-366). The
resource-metadata call's outcome is `resResp`; the package-metadata call
is modelled as an oracle `pkgFetch` from package id to outcome, so that
"no second call is made" is expressible as independence from `pkgFetch`.
Control flow: step 1 extracts `package_id` (Python truthiness: `None` and
`""` fail the `if not package_id` guard) and errors terminally when it is
missing; step 2 reads the three license keys, errors when neither title
nor id is truthy, and otherwise substitutes `LICENSE_URL_FALLBACK` for a
falsy `license_url` (`license_url or "..."`). Any raised exception is
caught as `{"error": str(e)}`. -/
def get_vehicle_dataset_license_tool (resResp : UpstreamResp ResourceMeta)
    (pkgFetch : String → UpstreamResp PackageMeta) : LicenseToolResult :=
  match fetch_resource_details RESOURCE_ID resResp with
  | .error e => .errorDict e
  | .ok rd =>
    if pyTruthyStr rd.package_id = false then
      .errorDict ("Could not determine package_id for resource " ++ RESOURCE_ID)
    else
      let package_id := rd.package_id.getD ""
      match fetch_package_details package_id (pkgFetch package_id) with
      | .error e => .errorDict e
      | .ok pk =>
        if pyTruthyStr pk.license_title = false ∧ pyTruthyStr pk.license_id = false then
          .errorDict ("No license information found for package " ++ package_id)
        else
          .license ⟨package_id, RESOURCE_ID, pk.license_title, pk.license_id,
            if pyTruthyStr pk.license_url then pk.license_url.getD ""
            else LICENSE_URL_FALLBACK⟩

/-- Decidable characterization of "the license chain succeeds": the
resource lookup returns a truthy `package_id` and the package lookup for
that id returns a truthy `license_title` or `license_id`. Used as the
right-hand side of the success-iff theorem. -/
def licenseResolutionSucceeds (resResp : UpstreamResp ResourceMeta)
    (pkgFetch : String → UpstreamResp PackageMeta) : Bool :=
  match fetch_resource_details RESOURCE_ID resResp with
  | .error _ => false
  | .ok rd =>
    pyTruthyStr rd.package_id &&
      (match fetch_package_details (rd.package_id.getD "")
          (pkgFetch (rd.package_id.getD "")) with
       | .error _ => false
       | .ok pk => pyTruthyStr pk.license_title || pyTruthyStr pk.license_id)

/-- A concrete vehicle record used in concrete evaluations. -/
def recA : VehicleRec := [("mispar_rechev", "1013660"), ("tozeret_nm", "TOYOTA")]

/-- A second concrete vehicle record used in concrete evaluations. -/
def recB : VehicleRec := [("mispar_rechev", "2222222"), ("tozeret_nm", "HONDA")]

/-! ## Shared lemmas about the filter builder -/

/-- The key sequence of the filter map, segment by segment. -/
lemma buildSearchFilter_map_fst (c : SearchCriteria) :
    (buildSearchFilter c).map Prod.fst =
      (if pyTruthyStr c.tozeret_nm then ["tozeret_nm"] else [])
      ++ (if pyTruthyStr c.degem_nm then ["degem_nm"] else [])
      ++ (if c.shnat_yitzur.isSome then ["shnat_yitzur"] else [])
      ++ (if pyTruthyStr c.mispar_rechev then ["mispar_rechev"] else []) := by
  obtain ⟨tz, dg, sy, mr, lim, off⟩ := c
  cases sy <;> cases h1 : pyTruthyStr tz <;> cases h2 : pyTruthyStr dg <;>
    cases h3 : pyTruthyStr mr <;>
    simp [buildSearchFilter, h1, h2, h3]

/-- Membership in the key set of the filter map, characterized per field. -/
lemma mem_buildSearchFilter_keys (c : SearchCriteria) (k : String) :
    k ∈ (buildSearchFilter c).map Prod.fst ↔
      (k = "tozeret_nm" ∧ pyTruthyStr c.tozeret_nm = true)
      ∨ (k = "degem_nm" ∧ pyTruthyStr c.degem_nm = true)
      ∨ (k = "shnat_yitzur" ∧ c.shnat_yitzur.isSome = true)
      ∨ (k = "mispar_rechev" ∧ pyTruthyStr c.mispar_rechev = true) := by
  rw [buildSearchFilter_map_fst]
  cases h1 : pyTruthyStr c.tozeret_nm <;> cases h2 : pyTruthyStr c.degem_nm <;>
    cases h3 : c.shnat_yitzur.isSome <;> cases h4 : pyTruthyStr c.mispar_rechev <;>
    simp

/-- Every value of the filter map is a one-element list. -/
lemma buildSearchFilter_values_singleton (c : SearchCriteria) :
    ∀ p ∈ buildSearchFilter c, p.snd.length = 1 := by
  intro p hp
  unfold buildSearchFilter at hp
  simp only [List.mem_append] at hp
  rcases hp with (((h | h) | h) | h) <;> split at h <;> simp_all

/-! ## Claim theorems -/

/-- C2: for every upstream envelope given to the exact-match lookup, a
`success: false` envelope raises the upstream-failure `ValueError`; a
successful envelope with an empty record set returns the not-found dict
(a returned value, not an exception); and a successful envelope with a
non-empty record set returns exactly its first record, unchanged. -/
theorem fetch_vehicle_by_id_normalization (success : Bool) (result : Option QueryResult) :
    (success = false →
      fetch_vehicle_by_id (.env success result) = .thrown "Failed to fetch data from API")
    ∧ (success = true → envRecords result = [] →
      fetch_vehicle_by_id (.env success result) = .errorDict "Vehicle not found")
    ∧ (∀ r rs, success = true → envRecords result = r :: rs →
      fetch_vehicle_by_id (.env success result) = .record r) := by
  refine ⟨?_, ?_, ?_⟩
  · intro h; subst h; simp [fetch_vehicle_by_id]
  · intro h hr; subst h; simp [fetch_vehicle_by_id, hr]
  · intro r rs h hr; subst h; simp [fetch_vehicle_by_id, hr]

/-- Witness for `fetch_vehicle_by_id_normalization` at a concrete
one-record envelope. -/
theorem fetch_vehicle_by_id_normalization_witness :
    fetch_vehicle_by_id (.env true (some ⟨some 1, some [recA]⟩)) = .record recA :=
  (fetch_vehicle_by_id_normalization true (some ⟨some 1, some [recA]⟩)).2.2 recA [] rfl rfl

/-- C5: for every successful search envelope, the returned `SearchResult`
carries the envelope's `result.total` and `result.records` verbatim
(with defaults 0 and `[]` when absent), and its `limit` and `offset`
equal those of the request. -/
theorem search_vehicles_success_verbatim (c : SearchCriteria) (result : Option QueryResult) :
    ∃ r, search_vehicles c (.env true result) = .ok r
      ∧ r.total = envTotal result ∧ r.records = envRecords result
      ∧ r.limit = c.limit ∧ r.offset = c.offset :=
  ⟨_, rfl, rfl, rfl, rfl, rfl⟩

/-- C9: the `vehicles://{license_plate}` read-only resource returns the
same result as the `get_vehicle_by_plate` tool for every upstream
behaviour. -/
theorem vehicle_resource_mirrors_plate_tool (resp : UpstreamResp QueryResult) :
    vehicle_info resp = get_vehicle_by_plate_tool resp := rfl

/-- C3 counterexample: a criteria whose `tozeret_nm` field is present
(supplied as the empty string) produces no key at all — the filter map is
empty — refuting "a key exactly for each optional field present". -/
theorem present_empty_string_field_emits_no_key :
    ((⟨some "", none, none, none, 10, 0⟩ : SearchCriteria).tozeret_nm).isSome = true
    ∧ buildSearchFilter ⟨some "", none, none, none, 10, 0⟩ = [] := by
  exact ⟨rfl, by decide⟩

/-- C3 (amended): the filter map contains a key exactly for each optional
string field present with a non-empty value (empty strings are treated as
absent) and for the year field whenever present; no key is ever emitted
for an absent field; and when no optional field is set the filter map is
empty and the request body carries no `filters` entry at all. -/
theorem buildSearchFilter_key_presence (c : SearchCriteria) :
    (buildSearchFilter c).map Prod.fst =
      (if pyTruthyStr c.tozeret_nm then ["tozeret_nm"] else [])
      ++ (if pyTruthyStr c.degem_nm then ["degem_nm"] else [])
      ++ (if c.shnat_yitzur.isSome then ["shnat_yitzur"] else [])
      ++ (if pyTruthyStr c.mispar_rechev then ["mispar_rechev"] else [])
    ∧ (c.tozeret_nm = none → c.degem_nm = none → c.shnat_yitzur = none →
        c.mispar_rechev = none →
        buildSearchFilter c = []
        ∧ (search_params c).map Prod.fst = ["resource_id", "limit", "offset"]) := by
  obtain ⟨tz, dg, sy, mr, lim, off⟩ := c
  refine ⟨buildSearchFilter_map_fst _, ?_⟩
  rintro rfl rfl rfl rfl
  exact ⟨rfl, rfl⟩

/-- Witness for `buildSearchFilter_key_presence` at the all-absent
criteria. -/
theorem buildSearchFilter_key_presence_witness :
    buildSearchFilter ⟨none, none, none, none, 10, 0⟩ = []
    ∧ (search_params ⟨none, none, none, none, 10, 0⟩).map Prod.fst =
        ["resource_id", "limit", "offset"] :=
  (buildSearchFilter_key_presence ⟨none, none, none, none, 10, 0⟩).2 rfl rfl rfl rfl

/-- C4 counterexample: the exact-match request body has no `limit` or
`offset` key, its filter value is the bare plate string rather than a
one-element list, and a search with the year filter set carries an extra
top-level `shnat_yitzur` key beyond the four documented ones. -/
theorem request_body_shape_refuted :
    "limit" ∉ (fetch_vehicle_params "1013660").map Prod.fst
    ∧ "offset" ∉ (fetch_vehicle_params "1013660").map Prod.fst
    ∧ "shnat_yitzur" ∈ (search_params ⟨none, none, some 2020, none, 10, 0⟩).map Prod.fst
    ∧ ("filters", ParamValue.jsonStrFilters [("mispar_rechev", "1013660")])
        ∈ fetch_vehicle_params "1013660" := by
  refine ⟨?_, ?_, ?_, ?_⟩ <;> decide

/-- C4 (amended): the search request body consists of `resource_id`,
`limit`, `offset`, an extra top-level `shnat_yitzur` string when the year
filter is set, and a `filters` entry when the filter map is non-empty,
with every filter value a one-element list of the field's string form;
the exact-match body consists only of `resource_id` and a `filters` entry
whose single value is the bare plate string (no `limit`/`offset`, no
list). -/
theorem request_body_shape (c : SearchCriteria) (plate : String) :
    fetch_vehicle_params plate =
      [("resource_id", ParamValue.str RESOURCE_ID),
       ("filters", ParamValue.jsonStrFilters [("mispar_rechev", plate)])]
    ∧ (search_params c).map Prod.fst =
        ["resource_id", "limit", "offset"]
        ++ (if c.shnat_yitzur.isSome then ["shnat_yitzur"] else [])
        ++ (if (buildSearchFilter c).isEmpty then [] else ["filters"])
    ∧ (∀ p ∈ buildSearchFilter c, p.snd.length = 1) := by
  refine ⟨rfl, ?_, buildSearchFilter_values_singleton c⟩
  obtain ⟨tz, dg, sy, mr, lim, off⟩ := c
  cases sy <;> cases h : (buildSearchFilter ⟨tz, dg, _, mr, lim, off⟩).isEmpty <;>
    simp [search_params, h]

/-- Witness for `request_body_shape` at a concrete manufacturer-only
search. -/
theorem request_body_shape_witness :
    fetch_vehicle_params "1013660" =
      [("resource_id", ParamValue.str RESOURCE_ID),
       ("filters", ParamValue.jsonStrFilters [("mispar_rechev", "1013660")])]
    ∧ (("tozeret_nm", ["TOYOTA"]) : String × List String).snd.length = 1 :=
  ⟨(request_body_shape ⟨some "TOYOTA", none, none, none, 10, 0⟩ "1013660").1,
   (request_body_shape ⟨some "TOYOTA", none, none, none, 10, 0⟩ "1013660").2.2
     ("tozeret_nm", ["TOYOTA"]) (by decide)⟩

/-- C6 counterexample: a successful envelope carrying two records against
a request with `limit = 1` yields a `SearchResult` whose record sequence
(length 2) exceeds its `limit` field (1) — the code performs no
truncation. -/
theorem search_records_exceed_limit_example :
    search_vehicles ⟨none, none, none, none, 1, 0⟩
        (.env true (some ⟨some 2, some [recA, recB]⟩)) =
      .ok ⟨2, [recA, recB], 1, 0⟩
    ∧ ¬ ((([recA, recB] : List VehicleRec).length : Int) ≤ 1) := by
  exact ⟨rfl, by decide⟩

/-- C6 (amended): `records.length ≤ limit` holds for the returned
`SearchResult` exactly when the upstream returned at most `limit`
records: the code passes the record sequence through without truncation,
so the invariant is inherited from the upstream, not enforced locally. -/
theorem search_records_le_limit_of_upstream (c : SearchCriteria) (result : Option QueryResult)
    (h : ((envRecords result).length : Int) ≤ c.limit) :
    ∃ r, search_vehicles c (.env true result) = .ok r
      ∧ (r.records.length : Int) ≤ r.limit :=
  ⟨_, rfl, h⟩

/-- Witness for `search_records_le_limit_of_upstream` at a one-record
envelope and the default limit. -/
theorem search_records_le_limit_of_upstream_witness :
    ∃ r, search_vehicles ⟨none, none, none, none, 10, 0⟩
        (.env true (some ⟨some 1, some [recA]⟩)) = .ok r
      ∧ (r.records.length : Int) ≤ r.limit :=
  search_records_le_limit_of_upstream ⟨none, none, none, none, 10, 0⟩
    (some ⟨some 1, some [recA]⟩) (by decide)

/-- C8 counterexample: a negative `limit` and `offset` flow unvalidated
into both the built request body and the returned `SearchResult`. -/
theorem negative_limit_offset_pass_through :
    search_vehicles ⟨none, none, none, none, -1, -2⟩ (.env true (some ⟨some 0, some []⟩)) =
      .ok ⟨0, [], -1, -2⟩
    ∧ ("limit", ParamValue.int (-1)) ∈ search_params ⟨none, none, none, none, -1, -2⟩
    ∧ ("offset", ParamValue.int (-2)) ∈ search_params ⟨none, none, none, none, -1, -2⟩ := by
  refine ⟨rfl, ?_, ?_⟩ <;> decide

/-- C8 (amended): the declared defaults are `limit = 10` and `offset = 0`,
and `limit`/`offset` are passed into the request body and echoed into the
`SearchResult` verbatim; no validation is performed, so negative supplied
values are forwarded unchanged rather than rejected. -/
theorem limit_offset_echoed_not_validated (c : SearchCriteria) :
    search_limit_default = 10 ∧ search_offset_default = 0
    ∧ ("limit", ParamValue.int c.limit) ∈ search_params c
    ∧ ("offset", ParamValue.int c.offset) ∈ search_params c
    ∧ (∀ result, ∃ r, search_vehicles c (.env true result) = .ok r
        ∧ r.limit = c.limit ∧ r.offset = c.offset) := by
  obtain ⟨tz, dg, sy, mr, lim, off⟩ := c
  refine ⟨rfl, rfl, ?_, ?_, fun result => ⟨_, rfl, rfl, rfl⟩⟩ <;>
  · cases sy <;>
    · simp only [search_params]
      split <;> simp

/-- C10: the filter builder treats an empty string supplied for
manufacturer, model, or plate id as absent (no filter key is emitted),
whereas the registration-year field is included whenever it is not
`None`, including the value 0 — presence for the string fields is decided
by truthiness. -/
theorem string_filters_by_truthiness (c : SearchCriteria) :
    (c.tozeret_nm = some "" → "tozeret_nm" ∉ (buildSearchFilter c).map Prod.fst)
    ∧ (c.degem_nm = some "" → "degem_nm" ∉ (buildSearchFilter c).map Prod.fst)
    ∧ (c.mispar_rechev = some "" → "mispar_rechev" ∉ (buildSearchFilter c).map Prod.fst)
    ∧ (∀ y, c.shnat_yitzur = some y → ("shnat_yitzur", [toString y]) ∈ buildSearchFilter c) := by
  refine ⟨?_, ?_, ?_, ?_⟩
  · intro h
    rw [mem_buildSearchFilter_keys]
    simp [h, pyTruthyStr]
  · intro h
    rw [mem_buildSearchFilter_keys]
    simp [h, pyTruthyStr]
  · intro h
    rw [mem_buildSearchFilter_keys]
    simp [h, pyTruthyStr]
  · intro y h
    simp [buildSearchFilter, h]

/-- Witness for `string_filters_by_truthiness`: all three string fields
supplied as empty strings emit no key, while year 0 emits its entry. -/
theorem string_filters_by_truthiness_witness :
    "tozeret_nm" ∉ (buildSearchFilter ⟨some "", some "", some 0, some "", 10, 0⟩).map Prod.fst
    ∧ ("shnat_yitzur", [toString (0 : Int)]) ∈
        buildSearchFilter ⟨some "", some "", some 0, some "", 10, 0⟩ :=
  ⟨(string_filters_by_truthiness ⟨some "", some "", some 0, some "", 10, 0⟩).1 rfl,
   (string_filters_by_truthiness ⟨some "", some "", some 0, some "", 10, 0⟩).2.2.2 0 rfl⟩

/-! ## License-chain lemmas -/

/-- The dataset-license tool returns a `license` value iff the two-hop
chain succeeds. -/
lemma license_tool_success_iff (resResp : UpstreamResp ResourceMeta)
    (pkgFetch : String → UpstreamResp PackageMeta) :
    (∃ l, get_vehicle_dataset_license_tool resResp pkgFetch = .license l) ↔
      licenseResolutionSucceeds resResp pkgFetch = true := by
  unfold get_vehicle_dataset_license_tool licenseResolutionSucceeds
  cases hr : fetch_resource_details RESOURCE_ID resResp with
  | error e => simp
  | ok rd =>
    cases h1 : pyTruthyStr rd.package_id with
    | false => simp [h1]
    | true =>
      cases hp : fetch_package_details (rd.package_id.getD "")
          (pkgFetch (rd.package_id.getD "")) with
      | error e => simp [h1, hp]
      | ok pk =>
        cases t1 : pyTruthyStr pk.license_title <;>
          cases t2 : pyTruthyStr pk.license_id <;> simp [h1, hp, t1, t2]

/-- A missing (or empty) `package_id` is terminal: the tool returns the
resolution error without consulting the package-metadata oracle at all. -/
lemma license_tool_missing_package_id (resResp : UpstreamResp ResourceMeta)
    (rd : ResourceMeta) (hrd : fetch_resource_details RESOURCE_ID resResp = .ok rd)
    (h : pyTruthyStr rd.package_id = false)
    (g : String → UpstreamResp PackageMeta) :
    get_vehicle_dataset_license_tool resResp g =
      .errorDict ("Could not determine package_id for resource " ++ RESOURCE_ID) := by
  simp [get_vehicle_dataset_license_tool, hrd, h]

/-- Neither a truthy title nor a truthy id: the no-license error. -/
lemma license_tool_no_license (resResp : UpstreamResp ResourceMeta)
    (pkgFetch : String → UpstreamResp PackageMeta) (rd : ResourceMeta) (pk : PackageMeta)
    (hrd : fetch_resource_details RESOURCE_ID resResp = .ok rd)
    (h1 : pyTruthyStr rd.package_id = true)
    (hpk : fetch_package_details (rd.package_id.getD "")
      (pkgFetch (rd.package_id.getD "")) = .ok pk)
    (t1 : pyTruthyStr pk.license_title = false)
    (t2 : pyTruthyStr pk.license_id = false) :
    get_vehicle_dataset_license_tool resResp pkgFetch =
      .errorDict ("No license information found for package " ++ rd.package_id.getD "") := by
  simp [get_vehicle_dataset_license_tool, hrd, h1, hpk, t1, t2]

/-- A falsy `license_url` with a truthy title or id yields a successful
`LicenseInfo` carrying the sentinel in place of the URL. -/
lemma license_tool_url_fallback (resResp : UpstreamResp ResourceMeta)
    (pkgFetch : String → UpstreamResp PackageMeta) (rd : ResourceMeta) (pk : PackageMeta)
    (hrd : fetch_resource_details RESOURCE_ID resResp = .ok rd)
    (h1 : pyTruthyStr rd.package_id = true)
    (hpk : fetch_package_details (rd.package_id.getD "")
      (pkgFetch (rd.package_id.getD "")) = .ok pk)
    (hor : pyTruthyStr pk.license_title = true ∨ pyTruthyStr pk.license_id = true)
    (hu : pyTruthyStr pk.license_url = false) :
    get_vehicle_dataset_license_tool resResp pkgFetch =
      .license ⟨rd.package_id.getD "", RESOURCE_ID, pk.license_title, pk.license_id,
        LICENSE_URL_FALLBACK⟩ := by
  rcases hor with t | t <;> simp [get_vehicle_dataset_license_tool, hrd, h1, hpk, t, hu]

/-- C1: license resolution succeeds iff the resource lookup yields a
(truthy) `package_id` and the package lookup yields a truthy license
title or id; a missing `package_id` is a terminal error independent of
any package-metadata behaviour (no second call is made); missing title
and id yield the no-license error; and a missing `license_url` alongside
a present title/id yields a successful `LicenseInfo` carrying the
sentinel string in place of the URL. -/
theorem get_vehicle_dataset_license_spec (resResp : UpstreamResp ResourceMeta)
    (pkgFetch : String → UpstreamResp PackageMeta) :
    ((∃ l, get_vehicle_dataset_license_tool resResp pkgFetch = .license l) ↔
        licenseResolutionSucceeds resResp pkgFetch = true)
    ∧ (∀ rd, fetch_resource_details RESOURCE_ID resResp = .ok rd →
        pyTruthyStr rd.package_id = false →
        ∀ g, get_vehicle_dataset_license_tool resResp g =
          .errorDict ("Could not determine package_id for resource " ++ RESOURCE_ID))
    ∧ (∀ rd pk, fetch_resource_details RESOURCE_ID resResp = .ok rd →
        pyTruthyStr rd.package_id = true →
        fetch_package_details (rd.package_id.getD "")
          (pkgFetch (rd.package_id.getD "")) = .ok pk →
        pyTruthyStr pk.license_title = false → pyTruthyStr pk.license_id = false →
        get_vehicle_dataset_license_tool resResp pkgFetch =
          .errorDict ("No license information found for package " ++ rd.package_id.getD ""))
    ∧ (∀ rd pk, fetch_resource_details RESOURCE_ID resResp = .ok rd →
        pyTruthyStr rd.package_id = true →
        fetch_package_details (rd.package_id.getD "")
          (pkgFetch (rd.package_id.getD "")) = .ok pk →
        (pyTruthyStr pk.license_title = true ∨ pyTruthyStr pk.license_id = true) →
        pyTruthyStr pk.license_url = false →
        get_vehicle_dataset_license_tool resResp pkgFetch =
          .license ⟨rd.package_id.getD "", RESOURCE_ID, pk.license_title, pk.license_id,
            LICENSE_URL_FALLBACK⟩) :=
  ⟨license_tool_success_iff resResp pkgFetch,
   fun rd hrd h g => license_tool_missing_package_id resResp rd hrd h g,
   fun rd pk hrd h1 hpk t1 t2 =>
     license_tool_no_license resResp pkgFetch rd pk hrd h1 hpk t1 t2,
   fun rd pk hrd h1 hpk hor hu =>
     license_tool_url_fallback resResp pkgFetch rd pk hrd h1 hpk hor hu⟩

/-- Witness for `get_vehicle_dataset_license_spec`: a concrete resource
envelope with package id `"pkg"` and a package envelope with a title but
no URL produces the sentinel-bearing `LicenseInfo`. -/
theorem get_vehicle_dataset_license_spec_witness :
    get_vehicle_dataset_license_tool (.env true (some ⟨some "pkg"⟩))
        (fun _ => .env true (some ⟨some "Creative Commons", some "cc-zero", none⟩)) =
      .license ⟨"pkg", RESOURCE_ID, some "Creative Commons", some "cc-zero",
        LICENSE_URL_FALLBACK⟩ :=
  (get_vehicle_dataset_license_spec (.env true (some ⟨some "pkg"⟩))
      (fun _ => .env true (some ⟨some "Creative Commons", some "cc-zero", none⟩))).2.2.2
    ⟨some "pkg"⟩ ⟨some "Creative Commons", some "cc-zero", none⟩
    rfl rfl rfl (Or.inl rfl) rfl

/-- C7: every boundary tool converts every lower-level failure — network
error, protocol error, or `success: false` envelope — into a returned,
classified error dict rather than letting it escape: for each of the
four exposed operations and each failure class, the result is the
corresponding `errorDict`, including a second-hop network failure inside
the license chain. -/
theorem boundary_failures_classified :
    (∀ tz dg mr lim off m,
      search_vehicles_tool tz dg mr lim off (.netError m) = .errorDict m)
    ∧ (∀ tz dg mr lim off m,
      search_vehicles_tool tz dg mr lim off (.badJson m) = .errorDict m)
    ∧ (∀ tz dg mr lim off result,
      search_vehicles_tool tz dg mr lim off (.env false result) =
        .errorDict "Failed to fetch data from API")
    ∧ (∀ m, get_vehicle_by_plate_tool (.netError m) = .errorDict m)
    ∧ (∀ m, get_vehicle_by_plate_tool (.badJson m) = .errorDict m)
    ∧ (∀ result, get_vehicle_by_plate_tool (.env false result) =
        .errorDict "Failed to fetch data from API")
    ∧ (∀ m, list_available_licenses_tool (.netError m) = .errorDict m)
    ∧ (∀ m, list_available_licenses_tool (.badJson m) = .errorDict m)
    ∧ (∀ result, list_available_licenses_tool (.env false result) =
        .errorDict "Failed to fetch licenses from API")
    ∧ (∀ m g, get_vehicle_dataset_license_tool (.netError m) g = .errorDict m)
    ∧ (∀ m g, get_vehicle_dataset_license_tool (.badJson m) g = .errorDict m)
    ∧ (∀ result g, get_vehicle_dataset_license_tool (.env false result) g =
        .errorDict ("Failed to fetch resource details for " ++ RESOURCE_ID))
    ∧ (∀ m, get_vehicle_dataset_license_tool (.env true (some ⟨some "pkg"⟩))
        (fun _ => .netError m) = .errorDict m) := by
  refine ⟨?_, ?_, ?_, ?_, ?_, ?_, ?_, ?_, ?_, ?_, ?_, ?_, ?_⟩ <;> intros <;> rfl

end CarPlate
